import Mathlib

/-!
Shallow embedding of the coffee-app storefront (React/TypeScript + Supabase).

The definitions below are translated from the repository source:
* `src/src/contexts/CartContext.tsx` — cart aggregator (addToCart,
  updateQuantity, removeFromCart, clearCart, totalItems, totalPrice);
* `src/src/pages/Checkout.tsx` — step-1 shipping validation and
  `handlePlaceOrder` (order insert, order-item insert, payment branch);
* `src/src/components/layout/Navbar.tsx` — Razorpay hook (amount is passed
  through unchanged to the gateway, so the amount handed to the collaborator
  is the `amount` field computed in `handlePlaceOrder`);
* `src/src/pages/admin/Orders.tsx` — `handleStatusChange` and
  `decrementStockForOrder`.

Remote tables are modelled as lists of rows; each remote round trip that the
client branches on carries an explicit success flag where the claims need the
failure path.  User-visible toasts are modelled as an output list.
-/

namespace CoffeeApp

/-! ## Cart aggregator (src/src/contexts/CartContext.tsx) -/

/-- A cart line item (interface `CartItem` in CartContext.tsx).
Quantities are integers, prices are exact rationals. -/
structure CartItem where
  id : Nat
  product_id : Nat
  product_name : String
  product_image : String
  price : ℚ
  quantity : Int
  grind_type : String
  bag_size : String
deriving DecidableEq, Repr

/-- `Omit<CartItem, "id">`: the argument of `addToCart`. -/
structure CartItemInput where
  product_id : Nat
  product_name : String
  product_image : String
  price : ℚ
  quantity : Int
  grind_type : String
  bag_size : String
deriving DecidableEq, Repr

/-- User-visible toast notifications emitted by the cart entry points. -/
inductive Toast where
  | pleaseSignIn
  | addedToCart
  | addToCartError
  | removedFromCart
deriving DecidableEq, Repr

/-- The duplicate test in `addToCart`: same (product_id, grind_type, bag_size). -/
def tupleMatches (i : CartItem) (n : CartItemInput) : Bool :=
  i.product_id == n.product_id && i.grind_type == n.grind_type &&
    i.bag_size == n.bag_size

/-- `removeFromCart(id)`: on remote success, filter the row out of the
in-memory mirror and toast "Removed from cart"; on failure only log. -/
def removeFromCart (items : List CartItem) (id : Nat) (remoteOk : Bool) :
    List CartItem × List Toast :=
  if remoteOk then
    (items.filter (fun i => !(i.id == id)), [Toast.removedFromCart])
  else
    (items, [])

/-- `updateQuantity(id, quantity)`: quantity ≤ 0 delegates to
`removeFromCart`; otherwise on remote success the stored quantity of the
matching row is overwritten. -/
def updateQuantity (items : List CartItem) (id : Nat) (quantity : Int)
    (remoteOk : Bool) : List CartItem × List Toast :=
  if quantity ≤ 0 then
    removeFromCart items id remoteOk
  else if remoteOk then
    (items.map (fun i => if i.id == id then { i with quantity := quantity } else i),
     [])
  else
    (items, [])

/-- `addToCart(item)`: without a user, toast "Please sign in" and return;
with a user, merge into an existing line with the same
(product_id, grind_type, bag_size) via `updateQuantity`, else insert a new
row (the remote returns the row, which is appended to the mirror). -/
def addToCart (user : Option Nat) (items : List CartItem) (newId : Nat)
    (input : CartItemInput) (remoteOk : Bool) : List CartItem × List Toast :=
  match user with
  | none => (items, [Toast.pleaseSignIn])
  | some _ =>
    match items.find? (fun i => tupleMatches i input) with
    | some existing =>
        updateQuantity items existing.id (existing.quantity + input.quantity)
          remoteOk
    | none =>
        if remoteOk then
          (items ++ [{ id := newId, product_id := input.product_id,
                       product_name := input.product_name,
                       product_image := input.product_image,
                       price := input.price, quantity := input.quantity,
                       grind_type := input.grind_type,
                       bag_size := input.bag_size }],
           [Toast.addedToCart])
        else
          (items, [Toast.addToCartError])

/-- `clearCart()`: without a user, return silently (no toast); with a user,
on remote success empty the mirror. -/
def clearCart (user : Option Nat) (items : List CartItem) (remoteOk : Bool) :
    List CartItem × List Toast :=
  match user with
  | none => (items, [])
  | some _ => if remoteOk then ([], []) else (items, [])

/-- `totalItems`: `items.reduce((sum, item) => sum + item.quantity, 0)`. -/
def totalItems (items : List CartItem) : Int :=
  items.foldl (fun sum item => sum + item.quantity) 0

/-- `totalPrice`: `items.reduce((sum, item) => sum + item.price * item.quantity, 0)`. -/
def totalPrice (items : List CartItem) : ℚ :=
  items.foldl (fun sum item => sum + item.price * (item.quantity : ℚ)) 0

/-- One user action on the cart aggregator, with the outcome of its remote
round trip. -/
inductive CartOp where
  | add (newId : Nat) (input : CartItemInput) (remoteOk : Bool)
  | update (id : Nat) (quantity : Int) (remoteOk : Bool)
  | remove (id : Nat) (remoteOk : Bool)
deriving DecidableEq, Repr

/-- Apply one cart operation to the in-memory mirror. -/
def applyCartOp (user : Option Nat) (items : List CartItem) :
    CartOp → List CartItem
  | CartOp.add newId input ok => (addToCart user items newId input ok).1
  | CartOp.update id q ok => (updateQuantity items id q ok).1
  | CartOp.remove id ok => (removeFromCart items id ok).1

/-- Apply a sequence of cart operations. -/
def applyCartOps (user : Option Nat) (items : List CartItem)
    (ops : List CartOp) : List CartItem :=
  ops.foldl (applyCartOp user) items

/-! ## Checkout orchestrator (src/src/pages/Checkout.tsx) -/

/-- The `ShippingInfo` form state. -/
structure ShippingInfo where
  name : String
  email : String
  phone : String
  address : String
  city : String
  state : String
  pincode : String
deriving DecidableEq, Repr

/-- Every character of the string is a decimal digit (the body of the
regular expressions used in `validateShipping`). -/
def isDigits (s : String) : Bool :=
  s.data.all Char.isDigit

/-- The string matches a `\d x n`-style anchored regular expression:
exactly `n` characters, all digits. -/
def matchesDigits (s : String) (n : Nat) : Bool :=
  s.length == n && isDigits s

/-- `validateShipping`: all seven fields non-empty, pincode matches six
digits, phone matches ten digits (checked in that order, each failure
surfacing its own toast). -/
def validateShipping (si : ShippingInfo) : Bool :=
  if si.name == "" || si.email == "" || si.phone == "" || si.address == "" ||
      si.city == "" || si.state == "" || si.pincode == "" then
    false
  else if !(matchesDigits si.pincode 6) then
    false
  else if !(matchesDigits si.phone 10) then
    false
  else
    true

/-- `handleNextStep`: from step 1 a failed validation blocks advancing,
otherwise the step counter moves forward, capped at 3. -/
def handleNextStep (si : ShippingInfo) (currentStep : Nat) : Nat :=
  if currentStep == 1 && !validateShipping si then currentStep
  else min (currentStep + 1) 3

/-- A row of the `orders` table, as created and updated by the client. -/
structure Order where
  id : Nat
  user_id : Nat
  status : String
  total_amount : ℚ
  shipping_name : String
  shipping_email : String
  shipping_phone : String
  shipping_address : String
  shipping_city : String
  shipping_state : String
  shipping_pincode : String
  payment_status : String
  payment_id : Option String
deriving DecidableEq, Repr

/-- A row of the `order_items` table.  The checkout insert never sets
`variant_id` (the column stays NULL); the decrement routine resolves the
variant later by name/grind/size. -/
structure OrderItem where
  order_id : Nat
  variant_id : Option Nat
  product_name : String
  grind_type : String
  bag_size : String
  quantity : Int
  unit_price : ℚ
deriving DecidableEq, Repr

/-- The `amount` field handed to the Razorpay hook in `handlePlaceOrder`:
`Math.round(totalPrice * 100) / 1000`.  (`Math.round` rounds half towards
positive infinity, which is Mathlib's `round`.) -/
def razorpayAmount (total : ℚ) : ℚ :=
  ((round (total * 100) : ℤ) : ℚ) / 1000

/-- The remote state touched by `handlePlaceOrder`: the two order tables and
the signed-in user's cart rows (mirrored by the cart aggregator). -/
structure CheckoutState where
  orders : List Order
  order_items : List OrderItem
  cart_items : List CartItem
deriving DecidableEq, Repr

/-- The payment-method radio selection on checkout step 2. -/
inductive PaymentMethod where
  | razorpay
  | cod
deriving DecidableEq, Repr

/-- Resolution of the Razorpay promise: the success handler fired with a
payment id, or the promise rejected (dismissal, gateway failure, or an open
error). -/
inductive PaymentOutcome where
  | success (paymentId : String)
  | cancelledOrFailed
deriving DecidableEq, Repr

/-- How `handlePlaceOrder` returned to the user. -/
inductive PlaceOrderResult where
  | gatewayUnavailable
  | paymentSuccess
  | paymentFailed
  | codConfirmed
deriving DecidableEq, Repr

/-- The order row inserted by `handlePlaceOrder` step 1. -/
def mkOrder (oid uid : Nat) (total : ℚ) (si : ShippingInfo) : Order :=
  { id := oid, user_id := uid, status := "new", total_amount := total,
    shipping_name := si.name, shipping_email := si.email,
    shipping_phone := si.phone, shipping_address := si.address,
    shipping_city := si.city, shipping_state := si.state,
    shipping_pincode := si.pincode, payment_status := "pending",
    payment_id := none }

/-- The order_items rows inserted by `handlePlaceOrder` step 2: one per cart
line, copying product_name/grind_type/bag_size/quantity/unit_price. -/
def mkOrderItems (oid : Nat) (cart : List CartItem) : List OrderItem :=
  cart.map (fun c =>
    { order_id := oid, variant_id := none, product_name := c.product_name,
      grind_type := c.grind_type, bag_size := c.bag_size,
      quantity := c.quantity, unit_price := c.price })

/-- `update({ payment_status }).eq("id", oid)` on the orders table. -/
def setPaymentStatus (orders : List Order) (oid : Nat) (ps : String) :
    List Order :=
  orders.map (fun o => if o.id == oid then { o with payment_status := ps } else o)

/-- `update({ payment_status: "success", payment_id }).eq("id", oid)`. -/
def setPaymentSuccess (orders : List Order) (oid : Nat) (pid : String) :
    List Order :=
  orders.map (fun o =>
    if o.id == oid then
      { o with payment_status := "success", payment_id := some pid }
    else o)

/-- `handlePlaceOrder` with both inserts succeeding (the path the claims are
about): insert the order, insert its items, then branch on the payment
method.  Returns the final remote/mirror state, the user-facing result, and
the amount handed to the payment collaborator (`none` when `openPayment` was
never invoked). -/
def handlePlaceOrder (st : CheckoutState) (uid oid : Nat) (si : ShippingInfo)
    (method : PaymentMethod) (razorpayLoaded : Bool)
    (outcome : PaymentOutcome) :
    CheckoutState × PlaceOrderResult × Option ℚ :=
  let total := totalPrice st.cart_items
  let order := mkOrder oid uid total si
  let st2 : CheckoutState :=
    { orders := st.orders ++ [order],
      order_items := st.order_items ++ mkOrderItems oid st.cart_items,
      cart_items := st.cart_items }
  match method with
  | PaymentMethod.razorpay =>
    if !razorpayLoaded then
      (st2, PlaceOrderResult.gatewayUnavailable, none)
    else
      match outcome with
      | PaymentOutcome.success pid =>
          ({ st2 with orders := setPaymentSuccess st2.orders oid pid,
                      cart_items := [] },
           PlaceOrderResult.paymentSuccess, some (razorpayAmount total))
      | PaymentOutcome.cancelledOrFailed =>
          ({ st2 with orders := setPaymentStatus st2.orders oid "failed" },
           PlaceOrderResult.paymentFailed, some (razorpayAmount total))
  | PaymentMethod.cod =>
      ({ st2 with orders := setPaymentStatus st2.orders oid "pending",
                  cart_items := [] },
       PlaceOrderResult.codConfirmed, none)

/-! ## Admin order status change and inventory decrement
(src/src/pages/admin/Orders.tsx) -/

/-- The slice of a `products` row used by the decrement routine. -/
structure Product where
  id : Nat
  name : String
deriving DecidableEq, Repr

/-- The slice of a `variants` row used by the decrement routine.
`stock_count` is a database integer; the client clamps writes at zero. -/
structure Variant where
  id : Nat
  product_id : Nat
  size : String
  grind_type : String
  stock_count : Int
deriving DecidableEq, Repr

/-- `.from("products").select("id").eq("name", name).limit(1)`: first row
whose name matches exactly. -/
def findProduct (ps : List Product) (name : String) : Option Product :=
  ps.find? (fun p => p.name == name)

/-- `.from("variants").select(...).eq("product_id", pid)
.eq("grind_type", g).eq("size", sz).limit(1)`. -/
def findVariant (vs : List Variant) (pid : Nat) (g sz : String) :
    Option Variant :=
  vs.find? (fun v => v.product_id == pid && v.grind_type == g && v.size == sz)

/-- The two lookups of `decrementStockForOrder` chained: product by exact
name, then variant by (product_id, grind_type, size). -/
def resolveItem (ps : List Product) (vs : List Variant) (it : OrderItem) :
    Option Variant :=
  match findProduct ps it.product_name with
  | none => none
  | some p => findVariant vs p.id it.grind_type it.bag_size

/-- The id of the variant an order item resolves to, if any. -/
def resolveId (ps : List Product) (vs : List Variant) (it : OrderItem) :
    Option Nat :=
  (resolveItem ps vs it).map Variant.id

/-- The row function of `update({ stock_count }).eq("id", wid)`. -/
def stockWrite (wid : Nat) (s : Int) (v : Variant) : Variant :=
  if v.id == wid then { v with stock_count := s } else v

/-- `update({ stock_count: s }).eq("id", wid)` on the variants table. -/
def updateVariantStock (vs : List Variant) (wid : Nat) (s : Int) :
    List Variant :=
  vs.map (stockWrite wid s)

/-- One iteration of the decrement loop: resolve the item; on a failed
lookup log and skip; otherwise write back `Math.max(0, stock - quantity)`. -/
def decrementStep (ps : List Product) (vs : List Variant) (it : OrderItem) :
    List Variant :=
  match resolveItem ps vs it with
  | none => vs
  | some v => updateVariantStock vs v.id (max 0 (v.stock_count - it.quantity))

/-- `decrementStockForOrder`: the loop over the order's items; each
iteration re-reads the variants table, so later items see earlier writes. -/
def decrementStockForOrder (ps : List Product) (vs : List Variant)
    (items : List OrderItem) : List Variant :=
  items.foldl (fun acc it => decrementStep ps acc it) vs

/-- The remote state touched by the admin orders page. -/
structure AdminDB where
  products : List Product
  variants : List Variant
  orders : List Order
  order_items : List OrderItem
deriving DecidableEq, Repr

/-- `.from("order_items").select("*").eq("order_id", oid)`. -/
def itemsForOrder (db : AdminDB) (oid : Nat) : List OrderItem :=
  db.order_items.filter (fun it => it.order_id == oid)

/-- The guard in `handleStatusChange`: previous status in {new, processing}
and new status in {shipped, completed}. -/
def shouldDecrementStock (previousStatus : Option String)
    (newStatus : String) : Bool :=
  (previousStatus == some "new" || previousStatus == some "processing") &&
    (newStatus == "shipped" || newStatus == "completed")

/-- `update({ status }).eq("id", oid)` on the orders table. -/
def setOrderStatus (orders : List Order) (oid : Nat) (st : String) :
    List Order :=
  orders.map (fun o => if o.id == oid then { o with status := st } else o)

/-- `handleStatusChange`: read the previous status from the (refetched)
orders list, compute the decrement guard, update the status, then run the
decrement routine when the guard holds.  No marker records that stock was
already decremented for the order. -/
def handleStatusChange (db : AdminDB) (orderId : Nat) (newStatus : String) :
    AdminDB :=
  let previousStatus :=
    (db.orders.find? (fun o => o.id == orderId)).map Order.status
  let shouldDecrement := shouldDecrementStock previousStatus newStatus
  let db1 : AdminDB := { db with orders := setOrderStatus db.orders orderId newStatus }
  if shouldDecrement then
    { db1 with
      variants := decrementStockForOrder db1.products db1.variants
        (itemsForOrder db1 orderId) }
  else
    db1

/-- First stock figure of a variant id in the table (the value a
`.select("stock_count").eq("id", vid).limit(1)` read would return). -/
def getStock (vs : List Variant) (vid : Nat) : Option Int :=
  (vs.find? (fun v => v.id == vid)).map Variant.stock_count

/-! ## Fixed sample data used by witnesses -/

/-- A sample cart row (variant data taken from the seed migration). -/
def cartLineA : CartItem :=
  { id := 1, product_id := 11, product_name := "Ethiopian Yirgacheffe",
    product_image := "img", price := 650, quantity := 1,
    grind_type := "whole_bean", bag_size := "250g" }

/-- A sample add-to-cart input with the same (product, grind, size) tuple as
`cartLineA`. -/
def inputSameTuple : CartItemInput :=
  { product_id := 11, product_name := "Ethiopian Yirgacheffe",
    product_image := "img", price := 650, quantity := 2,
    grind_type := "whole_bean", bag_size := "250g" }

/-- A sample add-to-cart input with a tuple not present in `[cartLineA]`. -/
def inputOtherTuple : CartItemInput :=
  { product_id := 11, product_name := "Ethiopian Yirgacheffe",
    product_image := "img", price := 1235, quantity := 1,
    grind_type := "coarse", bag_size := "500g" }

/-! ## Generic list lemmas -/

/-- `find?` over a mapped list. -/
theorem find?_over_map {α β : Type} (f : α → β) (p : β → Bool) (l : List α) :
    (l.map f).find? p = (l.find? (fun a => p (f a))).map f := by
  induction l with
  | nil => rfl
  | cons x xs ih =>
    cases h : p (f x) with
    | true => simp [List.find?_cons, h]
    | false => simpa [List.find?_cons, h] using ih

/-- `filter` over a mapped list. -/
theorem filter_over_map {α β : Type} (f : α → β) (p : β → Bool) (l : List α) :
    (l.map f).filter p = (l.filter (fun a => p (f a))).map f := by
  induction l with
  | nil => rfl
  | cons x xs ih =>
    cases h : p (f x) with
    | true => simp [List.filter_cons, h, ih]
    | false => simp [List.filter_cons, h, ih]

/-- The quantity fold of `totalItems`, with a general accumulator. -/
theorem foldl_quantity (l : List CartItem) (a : Int) :
    l.foldl (fun sum i => sum + i.quantity) a =
      a + (l.map CartItem.quantity).sum := by
  induction l generalizing a with
  | nil => simp
  | cons x xs ih => simp [ih]; ring

/-- The price fold of `totalPrice`, with a general accumulator. -/
theorem foldl_price (l : List CartItem) (a : ℚ) :
    l.foldl (fun sum i => sum + i.price * (i.quantity : ℚ)) a =
      a + (l.map (fun i => i.price * (i.quantity : ℚ))).sum := by
  induction l generalizing a with
  | nil => simp
  | cons x xs ih => simp [ih]; ring

/-! ## Claims about the cart aggregator -/

/-- C5: with a signed-in user, adding an item whose
(product_id, grind_type, bag_size) tuple already has a line merges into it
(quantity becomes the sum, the row count is unchanged, and the single
matching line carries the summed quantity), while a tuple with no existing
line inserts one new row. -/
theorem C5_addToCart_merge_or_insert (u : Nat) (items : List CartItem)
    (newId : Nat) (input : CartItemInput) :
    (∀ ex, items.find? (fun i => tupleMatches i input) = some ex →
      0 < ex.quantity + input.quantity →
      (addToCart (some u) items newId input true).1 =
        items.map (fun i =>
          if i.id == ex.id then
            { i with quantity := ex.quantity + input.quantity }
          else i) ∧
      (addToCart (some u) items newId input true).1.length = items.length ∧
      (items.filter (fun i => tupleMatches i input) = [ex] →
        (addToCart (some u) items newId input true).1.filter
            (fun i => tupleMatches i input) =
          [{ ex with quantity := ex.quantity + input.quantity }])) ∧
    (items.find? (fun i => tupleMatches i input) = none →
      (addToCart (some u) items newId input true).1 =
        items ++ [{ id := newId, product_id := input.product_id,
                    product_name := input.product_name,
                    product_image := input.product_image,
                    price := input.price, quantity := input.quantity,
                    grind_type := input.grind_type,
                    bag_size := input.bag_size }]) := by
  constructor
  · intro ex hfind hpos
    have hnot : ¬ ex.quantity + input.quantity ≤ 0 := by omega
    have hres : (addToCart (some u) items newId input true).1 =
        items.map (fun i =>
          if i.id == ex.id then
            { i with quantity := ex.quantity + input.quantity }
          else i) := by
      simp [addToCart, hfind, updateQuantity, hnot]
    refine ⟨hres, ?_, ?_⟩
    · rw [hres, List.length_map]
    · intro huniq
      rw [hres, filter_over_map]
      have hcongr : items.filter (fun i =>
          tupleMatches (if i.id == ex.id then
            { i with quantity := ex.quantity + input.quantity } else i) input) =
          items.filter (fun i => tupleMatches i input) := by
        apply List.filter_congr
        intro i _
        cases h : i.id == ex.id <;> simp [h, tupleMatches]
      rw [hcongr, huniq]
      simp
  · intro hfind
    simp [addToCart, hfind]

/-- C5 witness: merging `inputSameTuple` into `[cartLineA]` yields a single
row of quantity 3, and adding `inputOtherTuple` appends a second row. -/
theorem C5_addToCart_witness :
    (addToCart (some 1) [cartLineA] 2 inputSameTuple true).1 =
      [{ cartLineA with quantity := 3 }] ∧
    (addToCart (some 1) [cartLineA] 2 inputSameTuple true).1.filter
        (fun i => tupleMatches i inputSameTuple) =
      [{ cartLineA with quantity := 3 }] ∧
    (addToCart (some 1) [cartLineA] 2 inputOtherTuple true).1 =
      [cartLineA,
       { id := 2, product_id := 11, product_name := "Ethiopian Yirgacheffe",
         product_image := "img", price := 1235, quantity := 1,
         grind_type := "coarse", bag_size := "500g" }] := by
  have hm := (C5_addToCart_merge_or_insert 1 [cartLineA] 2 inputSameTuple).1
    cartLineA (by decide) (by decide)
  have hi := (C5_addToCart_merge_or_insert 1 [cartLineA] 2 inputOtherTuple).2
    (by decide)
  refine ⟨hm.1.trans (by decide), hm.2.2 (by decide), hi.trans (by decide)⟩

/-- C6: after any sequence of add/updateQuantity/remove operations,
`totalItems` is the sum of the current quantities and `totalPrice` is the
sum of price × quantity over the current items. -/
theorem C6_cart_totals (u : Option Nat) (s0 : List CartItem)
    (ops : List CartOp) :
    totalItems (applyCartOps u s0 ops) =
      ((applyCartOps u s0 ops).map CartItem.quantity).sum ∧
    totalPrice (applyCartOps u s0 ops) =
      ((applyCartOps u s0 ops).map (fun i => i.price * (i.quantity : ℚ))).sum := by
  constructor
  · simpa using foldl_quantity (applyCartOps u s0 ops) 0
  · simpa using foldl_price (applyCartOps u s0 ops) 0

/-- C7: `updateQuantity(id, q)` with q ≤ 0 removes the item (no row with
that id remains), and with q > 0 overwrites the stored quantity of that
item with q. -/
theorem C7_updateQuantity_behaviour (items : List CartItem) (id : Nat)
    (q : Int) :
    (q ≤ 0 →
      (updateQuantity items id q true).1 =
        items.filter (fun i => !(i.id == id)) ∧
      ∀ i ∈ (updateQuantity items id q true).1, i.id ≠ id) ∧
    (0 < q →
      (updateQuantity items id q true).1 =
        items.map (fun i => if i.id == id then { i with quantity := q } else i) ∧
      ∀ i ∈ (updateQuantity items id q true).1, i.id = id → i.quantity = q) := by
  constructor
  · intro hq
    have heq : (updateQuantity items id q true).1 =
        items.filter (fun i => !(i.id == id)) := by
      simp [updateQuantity, removeFromCart, hq]
    refine ⟨heq, ?_⟩
    intro i hi
    rw [heq] at hi
    have hp := List.of_mem_filter hi
    simpa using hp
  · intro hq
    have hnot : ¬ q ≤ 0 := by omega
    have heq : (updateQuantity items id q true).1 =
        items.map (fun i => if i.id == id then { i with quantity := q } else i) := by
      simp [updateQuantity, hnot]
    refine ⟨heq, ?_⟩
    intro i hi hid
    rw [heq] at hi
    obtain ⟨j, hj, rfl⟩ := List.mem_map.mp hi
    cases h : j.id == id with
    | true => simp [h]
    | false =>
      rw [h] at hid
      simp at hid
      exact absurd hid (by simpa using h)

/-- C7 witness: on a one-line cart, quantity 0 and quantity −1 both remove
the line, and quantity 5 overwrites the stored quantity. -/
theorem C7_updateQuantity_witness :
    (updateQuantity [cartLineA] 1 0 true).1 = [] ∧
    (updateQuantity [cartLineA] 1 (-1) true).1 = [] ∧
    (updateQuantity [cartLineA] 1 5 true).1 =
      [{ cartLineA with quantity := 5 }] := by
  refine ⟨?_, ?_, ?_⟩
  · exact (((C7_updateQuantity_behaviour [cartLineA] 1 0).1 (by decide)).1).trans
      (by decide)
  · exact (((C7_updateQuantity_behaviour [cartLineA] 1 (-1)).1 (by decide)).1).trans
      (by decide)
  · exact (((C7_updateQuantity_behaviour [cartLineA] 1 5).2 (by decide)).1).trans
      (by decide)

/-- C9 counterexample: with no user signed in, `clearCart` returns without
surfacing any notification at all — in particular no "please sign in"
toast — refuting the claim that every mutation entry point surfaces one. -/
theorem C9_counterexample_silent_clearCart :
    (clearCart none [] true).2 = [] ∧
    Toast.pleaseSignIn ∉ (clearCart none [] true).2 ∧
    Toast.pleaseSignIn ∉ (updateQuantity [] 1 5 true).2 ∧
    Toast.pleaseSignIn ∉ (removeFromCart [] 1 true).2 := by
  refine ⟨rfl, ?_, ?_, ?_⟩ <;> decide

/-- C9 (amended): with no user signed in, `addToCart` leaves the cart
unchanged and surfaces the "please sign in" notification; `clearCart`
leaves it unchanged but silently; `updateQuantity` and `removeFromCart`
perform no sign-in check and never surface a "please sign in" notification,
and on the signed-out mirror (which is empty) they leave the state
unchanged. -/
theorem C9_unauthenticated_behaviour (items : List CartItem) (newId : Nat)
    (input : CartItemInput) (ok : Bool) (id : Nat) (q : Int) :
    (addToCart none items newId input ok).1 = items ∧
    (addToCart none items newId input ok).2 = [Toast.pleaseSignIn] ∧
    (clearCart none items ok).1 = items ∧
    (clearCart none items ok).2 = [] ∧
    (updateQuantity [] id q ok).1 = [] ∧
    Toast.pleaseSignIn ∉ (updateQuantity [] id q ok).2 ∧
    (removeFromCart [] id ok).1 = [] ∧
    Toast.pleaseSignIn ∉ (removeFromCart [] id ok).2 := by
  refine ⟨rfl, rfl, rfl, rfl, ?_, ?_, ?_, ?_⟩
  · unfold updateQuantity removeFromCart
    split <;> split <;> simp
  · unfold updateQuantity removeFromCart
    split <;> split <;> simp
  · unfold removeFromCart
    split <;> simp
  · unfold removeFromCart
    split <;> simp

/-! ## Claims about the checkout orchestrator -/

/-- A sample cart row totalling 1500.00 (price 1500, quantity 1). -/
def cartLine1500 : CartItem :=
  { cartLineA with price := 1500 }

/-- A sample valid shipping form. -/
def shippingSample : ShippingInfo :=
  { name := "John Doe", email := "john@example.com", phone := "9876543210",
    address := "123 Coffee Street", city := "Mumbai", state := "Maharashtra",
    pincode := "400001" }

/-- A sample checkout state: empty order tables, one cart line of 1500.00. -/
def checkoutSt1500 : CheckoutState :=
  { orders := [], order_items := [], cart_items := [cartLine1500] }

/-- C1 (code bug): for cart total 1500 rupees the code hands
`Math.round(1500 × 100) / 1000 = 150` to the payment collaborator, not the
`round(1500 × 100) = 150000` paise the specification requires — the extra
division by 1000 contradicts the adjacent "Convert to paise" comment. -/
theorem C1_gateway_amount_bug :
    razorpayAmount 1500 = 150 ∧
    ((round ((1500 : ℚ) * 100) : ℤ) : ℚ) = 150000 ∧
    razorpayAmount 1500 ≠ ((round ((1500 : ℚ) * 100) : ℤ) : ℚ) ∧
    (handlePlaceOrder checkoutSt1500 1 1 shippingSample
        PaymentMethod.razorpay true (PaymentOutcome.success "pay_1")).2.2 =
      some 150 := by
  have hround : round ((1500 : ℚ) * 100) = 150000 := by
    rw [show ((1500 : ℚ) * 100) = ((150000 : ℤ) : ℚ) by norm_num, round_intCast]
  have h1 : razorpayAmount 1500 = 150 := by
    unfold razorpayAmount
    rw [hround]
    norm_num
  have htp : totalPrice checkoutSt1500.cart_items = 1500 := by
    norm_num [checkoutSt1500, totalPrice, cartLine1500, cartLineA]
  refine ⟨h1, by rw [hround]; norm_num, by rw [hround]; rw [h1]; norm_num, ?_⟩
  simp only [handlePlaceOrder, htp, h1, Bool.not_true, Bool.false_eq_true,
    if_false]

/-- C4: placing a cash-on-delivery order appends an Order with
payment_status "pending", status "new" and total_amount equal to the cart
total, appends one OrderItem per cart line copying
product_name/grind_type/bag_size/quantity/unit_price, clears the cart, and
never invokes the payment collaborator. -/
theorem C4_cod_order (st : CheckoutState) (uid oid : Nat) (si : ShippingInfo)
    (loaded : Bool) (outcome : PaymentOutcome)
    (hfresh : ∀ o ∈ st.orders, o.id ≠ oid)
    (_hne : st.cart_items ≠ []) :
    (handlePlaceOrder st uid oid si PaymentMethod.cod loaded outcome).1.orders =
      st.orders ++ [mkOrder oid uid (totalPrice st.cart_items) si] ∧
    (mkOrder oid uid (totalPrice st.cart_items) si).payment_status = "pending" ∧
    (mkOrder oid uid (totalPrice st.cart_items) si).status = "new" ∧
    (mkOrder oid uid (totalPrice st.cart_items) si).total_amount =
      totalPrice st.cart_items ∧
    (handlePlaceOrder st uid oid si PaymentMethod.cod loaded outcome).1.order_items =
      st.order_items ++ st.cart_items.map (fun c =>
        { order_id := oid, variant_id := none, product_name := c.product_name,
          grind_type := c.grind_type, bag_size := c.bag_size,
          quantity := c.quantity, unit_price := c.price }) ∧
    (handlePlaceOrder st uid oid si PaymentMethod.cod loaded outcome).1.cart_items =
      [] ∧
    (handlePlaceOrder st uid oid si PaymentMethod.cod loaded outcome).2.1 =
      PlaceOrderResult.codConfirmed ∧
    (handlePlaceOrder st uid oid si PaymentMethod.cod loaded outcome).2.2 =
      none := by
  have horders :
      setPaymentStatus (st.orders ++ [mkOrder oid uid (totalPrice st.cart_items) si])
          oid "pending" =
        st.orders ++ [mkOrder oid uid (totalPrice st.cart_items) si] := by
    unfold setPaymentStatus
    rw [List.map_append]
    congr 1
    · conv_rhs => rw [← List.map_id st.orders]
      apply List.map_congr_left
      intro o ho
      have hid : (o.id == oid) = false := by
        simpa using hfresh o ho
      simp [hid]
    · simp [mkOrder]
  refine ⟨?_, rfl, rfl, rfl, rfl, rfl, rfl, rfl⟩
  simpa only [handlePlaceOrder] using horders

/-- C4 witness: a one-line COD cart of total 1500.00 yields exactly the
pending "new" order, clears the cart, and sends nothing to the gateway. -/
theorem C4_cod_witness :
    (handlePlaceOrder checkoutSt1500 1 1 shippingSample PaymentMethod.cod
        true (PaymentOutcome.success "x")).1.orders =
      [mkOrder 1 1 1500 shippingSample] ∧
    (handlePlaceOrder checkoutSt1500 1 1 shippingSample PaymentMethod.cod
        true (PaymentOutcome.success "x")).1.cart_items = [] ∧
    (handlePlaceOrder checkoutSt1500 1 1 shippingSample PaymentMethod.cod
        true (PaymentOutcome.success "x")).2.1 =
      PlaceOrderResult.codConfirmed ∧
    (handlePlaceOrder checkoutSt1500 1 1 shippingSample PaymentMethod.cod
        true (PaymentOutcome.success "x")).2.2 = none := by
  have h := C4_cod_order checkoutSt1500 1 1 shippingSample true
      (PaymentOutcome.success "x")
      (by intro o ho; simp [checkoutSt1500] at ho) (by decide)
  have htp : totalPrice checkoutSt1500.cart_items = 1500 := by
    norm_num [checkoutSt1500, totalPrice, cartLine1500, cartLineA]
  refine ⟨?_, h.2.2.2.2.2.1, h.2.2.2.2.2.2.1, h.2.2.2.2.2.2.2⟩
  have h1 := h.1
  rw [htp] at h1
  simpa [checkoutSt1500] using h1

/-- C8: step-1 validation succeeds exactly when all seven shipping fields
are non-empty, the phone is exactly ten digits and the pincode exactly six;
a failed validation blocks advancing past step 1; phone "12345" and pincode
"1234" are rejected while "9876543210"/"400001" are accepted. -/
theorem C8_step1_validation :
    (∀ si : ShippingInfo,
      (validateShipping si = true ↔
        (si.name ≠ "" ∧ si.email ≠ "" ∧ si.phone ≠ "" ∧ si.address ≠ "" ∧
         si.city ≠ "" ∧ si.state ≠ "" ∧ si.pincode ≠ "" ∧
         si.phone.length = 10 ∧ (∀ c ∈ si.phone.data, c.isDigit = true) ∧
         si.pincode.length = 6 ∧ (∀ c ∈ si.pincode.data, c.isDigit = true))) ∧
      (validateShipping si = false → handleNextStep si 1 = 1)) ∧
    validateShipping shippingSample = true ∧
    validateShipping { shippingSample with phone := "12345" } = false ∧
    validateShipping { shippingSample with pincode := "1234" } = false := by
  refine ⟨fun si => ⟨?_, ?_⟩, by decide, by decide, by decide⟩
  · have hsplit : validateShipping si = true ↔
        ((si.name == "" || si.email == "" || si.phone == "" ||
          si.address == "" || si.city == "" || si.state == "" ||
          si.pincode == "") = false ∧
         matchesDigits si.pincode 6 = true ∧
         matchesDigits si.phone 10 = true) := by
      unfold validateShipping
      by_cases h1 : (si.name == "" || si.email == "" || si.phone == "" ||
          si.address == "" || si.city == "" || si.state == "" ||
          si.pincode == "") = true
      · simp [h1]
      · by_cases h2 : matchesDigits si.pincode 6 = true
        · by_cases h3 : matchesDigits si.phone 10 = true
          · simp [h1, h2, h3, Bool.not_eq_true]
          · simp [h1, h2, h3, Bool.not_eq_true]
        · simp [h1, h2, Bool.not_eq_true]
    rw [hsplit]
    simp only [matchesDigits, isDigits, Bool.or_eq_false_iff,
      beq_eq_false_iff_ne, ne_eq, Bool.and_eq_true, beq_iff_eq,
      List.all_eq_true]
    tauto
  · intro hv
    simp [handleNextStep, hv]

/-- C8 witness: the rejected phone "12345" blocks advancing past step 1. -/
theorem C8_step1_witness :
    validateShipping { shippingSample with phone := "12345" } = false ∧
    handleNextStep { shippingSample with phone := "12345" } 1 = 1 := by
  exact ⟨by decide,
    (C8_step1_validation.1 { shippingSample with phone := "12345" }).2
      (by decide)⟩

/-- C10: with the gateway selected and the payment SDK unavailable,
`handlePlaceOrder` has already inserted the order (payment_status
"pending", status "new") and all of its items, then returns early with the
cart left uncleared and the payment collaborator never invoked. -/
theorem C10_gateway_unavailable (st : CheckoutState) (uid oid : Nat)
    (si : ShippingInfo) (outcome : PaymentOutcome) :
    handlePlaceOrder st uid oid si PaymentMethod.razorpay false outcome =
      ({ orders := st.orders ++ [mkOrder oid uid (totalPrice st.cart_items) si],
         order_items := st.order_items ++ mkOrderItems oid st.cart_items,
         cart_items := st.cart_items },
       PlaceOrderResult.gatewayUnavailable, none) ∧
    (mkOrder oid uid (totalPrice st.cart_items) si).payment_status =
      "pending" ∧
    (mkOrder oid uid (totalPrice st.cart_items) si).status = "new" := by
  exact ⟨rfl, rfl, rfl⟩

/-! ## Lemmas about the inventory decrement routine -/

/-- `stockWrite` leaves the id unchanged. -/
theorem stockWrite_id (wid : Nat) (s : Int) (v : Variant) :
    (stockWrite wid s v).id = v.id := by
  unfold stockWrite
  split <;> rfl

/-- `stockWrite` leaves the product id unchanged. -/
theorem stockWrite_product_id (wid : Nat) (s : Int) (v : Variant) :
    (stockWrite wid s v).product_id = v.product_id := by
  unfold stockWrite
  split <;> rfl

/-- `stockWrite` leaves the grind type unchanged. -/
theorem stockWrite_grind_type (wid : Nat) (s : Int) (v : Variant) :
    (stockWrite wid s v).grind_type = v.grind_type := by
  unfold stockWrite
  split <;> rfl

/-- `stockWrite` leaves the size unchanged. -/
theorem stockWrite_size (wid : Nat) (s : Int) (v : Variant) :
    (stockWrite wid s v).size = v.size := by
  unfold stockWrite
  split <;> rfl

/-- A stock write does not change the id column. -/
theorem ids_updateVariantStock (vs : List Variant) (wid : Nat) (s : Int) :
    (updateVariantStock vs wid s).map Variant.id = vs.map Variant.id := by
  unfold updateVariantStock
  rw [List.map_map]
  apply List.map_congr_left
  intro v _
  exact stockWrite_id wid s v

/-- Variant lookup ignores stock writes up to the write function. -/
theorem findVariant_updateVariantStock (vs : List Variant) (wid : Nat)
    (s : Int) (pid : Nat) (g sz : String) :
    findVariant (updateVariantStock vs wid s) pid g sz =
      (findVariant vs pid g sz).map (stockWrite wid s) := by
  unfold findVariant updateVariantStock
  rw [find?_over_map]
  have hp : (fun v => (stockWrite wid s v).product_id == pid &&
        (stockWrite wid s v).grind_type == g && (stockWrite wid s v).size == sz) =
      (fun v : Variant => v.product_id == pid && v.grind_type == g &&
        v.size == sz) := by
    funext v
    rw [stockWrite_product_id, stockWrite_grind_type, stockWrite_size]
  rw [hp]

/-- Item resolution ignores stock writes up to the write function. -/
theorem resolveItem_updateVariantStock (ps : List Product) (vs : List Variant)
    (wid : Nat) (s : Int) (it : OrderItem) :
    resolveItem ps (updateVariantStock vs wid s) it =
      (resolveItem ps vs it).map (stockWrite wid s) := by
  unfold resolveItem
  cases findProduct ps it.product_name with
  | none => rfl
  | some p =>
    exact findVariant_updateVariantStock vs wid s p.id it.grind_type it.bag_size

/-- The resolved variant id is invariant under stock writes. -/
theorem resolveId_updateVariantStock (ps : List Product) (vs : List Variant)
    (wid : Nat) (s : Int) (it : OrderItem) :
    resolveId ps (updateVariantStock vs wid s) it = resolveId ps vs it := by
  unfold resolveId
  rw [resolveItem_updateVariantStock]
  cases resolveItem ps vs it with
  | none => rfl
  | some v => simp [stockWrite_id]

/-- Reading the written id after a stock write returns the new stock
(whenever the id exists at all). -/
theorem getStock_updateVariantStock_self (vs : List Variant) (wid : Nat)
    (s : Int) :
    getStock (updateVariantStock vs wid s) wid =
      (getStock vs wid).map (fun _ => s) := by
  unfold getStock updateVariantStock
  rw [find?_over_map]
  have hp : (fun v => (stockWrite wid s v).id == wid) =
      (fun v : Variant => v.id == wid) := by
    funext v
    rw [stockWrite_id]
  rw [hp]
  cases hfind : vs.find? (fun v => v.id == wid) with
  | none => rfl
  | some v =>
    have hv : (v.id == wid) = true := by
      simpa using List.find?_some hfind
    simp [stockWrite, hv]

/-- Reading any other id after a stock write is unchanged. -/
theorem getStock_updateVariantStock_ne (vs : List Variant) (wid : Nat)
    (s : Int) (vid : Nat) (h : vid ≠ wid) :
    getStock (updateVariantStock vs wid s) vid = getStock vs vid := by
  unfold getStock updateVariantStock
  rw [find?_over_map]
  have hp : (fun v => (stockWrite wid s v).id == vid) =
      (fun v : Variant => v.id == vid) := by
    funext v
    rw [stockWrite_id]
  rw [hp]
  cases hfind : vs.find? (fun v => v.id == vid) with
  | none => rfl
  | some v =>
    have hv : v.id = vid := by simpa using List.find?_some hfind
    have hne : (v.id == wid) = false := by
      rw [hv]
      exact beq_eq_false_iff_ne.mpr h
    simp [stockWrite, hne]

/-- A resolved variant is a row of the variants table. -/
theorem mem_of_resolveItem (ps : List Product) (vs : List Variant)
    (it : OrderItem) (v : Variant) (h : resolveItem ps vs it = some v) :
    v ∈ vs := by
  unfold resolveItem at h
  cases hp : findProduct ps it.product_name with
  | none => rw [hp] at h; cases h
  | some p =>
    rw [hp] at h
    exact List.mem_of_find?_eq_some h

/-- A member id always has a stock reading. -/
theorem getStock_isSome_of_mem (vs : List Variant) (v : Variant)
    (hv : v ∈ vs) : ∃ w, getStock vs v.id = some w := by
  unfold getStock
  cases hfind : vs.find? (fun x => x.id == v.id) with
  | some x => exact ⟨x.stock_count, rfl⟩
  | none =>
    exfalso
    have hx := List.find?_eq_none.mp hfind v hv
    simp at hx

/-- With primary-key-unique ids, `find?` by a member's id returns exactly
that member. -/
theorem find?_id_of_nodup (vs : List Variant)
    (hnd : (vs.map Variant.id).Nodup) (v : Variant) (hv : v ∈ vs) :
    vs.find? (fun x => x.id == v.id) = some v := by
  induction vs with
  | nil => cases hv
  | cons x xs ih =>
    rw [List.map_cons, List.nodup_cons] at hnd
    cases hv with
    | head => exact List.find?_cons_of_pos xs (by simp)
    | tail _ hmem =>
      have hxv : x.id ≠ v.id := by
        intro he
        exact hnd.1 (he ▸ List.mem_map_of_mem Variant.id hmem)
      rw [List.find?_cons_of_neg xs (by simpa using hxv)]
      exact ih hnd.2 hmem

/-- With primary-key-unique ids, the stock reading of a member's id is that
member's stock. -/
theorem getStock_eq_of_nodup (vs : List Variant)
    (hnd : (vs.map Variant.id).Nodup) (v : Variant) (hv : v ∈ vs) :
    getStock vs v.id = some v.stock_count := by
  unfold getStock
  rw [find?_id_of_nodup vs hnd v hv]
  rfl

/-- `decrementStep` on a resolving item is the clamped stock write. -/
theorem decrementStep_of_resolve (ps : List Product) (vs : List Variant)
    (it : OrderItem) (v : Variant) (h : resolveItem ps vs it = some v) :
    decrementStep ps vs it =
      updateVariantStock vs v.id (max 0 (v.stock_count - it.quantity)) := by
  unfold decrementStep
  rw [h]

/-- `decrementStep` never changes the id column. -/
theorem ids_decrementStep (ps : List Product) (vs : List Variant)
    (it : OrderItem) :
    (decrementStep ps vs it).map Variant.id = vs.map Variant.id := by
  unfold decrementStep
  cases resolveItem ps vs it with
  | none => rfl
  | some v => exact ids_updateVariantStock vs v.id _

/-- Unfolding the decrement loop one item at a time. -/
theorem decrementStockForOrder_cons (ps : List Product) (vs : List Variant)
    (it : OrderItem) (rest : List OrderItem) :
    decrementStockForOrder ps vs (it :: rest) =
      decrementStockForOrder ps (decrementStep ps vs it) rest := rfl

/-- The decrement loop never changes the id column. -/
theorem ids_decrementStockForOrder (ps : List Product)
    (items : List OrderItem) : ∀ vs : List Variant,
    (decrementStockForOrder ps vs items).map Variant.id =
      vs.map Variant.id := by
  induction items with
  | nil => intro vs; rfl
  | cons it rest ih =>
    intro vs
    rw [decrementStockForOrder_cons, ih, ids_decrementStep]

/-- The resolved variant id is invariant under a decrement step. -/
theorem resolveId_decrementStep (ps : List Product) (vs : List Variant)
    (it0 it : OrderItem) :
    resolveId ps (decrementStep ps vs it0) it = resolveId ps vs it := by
  unfold decrementStep
  cases resolveItem ps vs it0 with
  | none => rfl
  | some v => exact resolveId_updateVariantStock ps vs v.id _ it

/-- The resolved variant id is invariant under the whole decrement loop. -/
theorem resolveId_decrementStockForOrder (ps : List Product)
    (items : List OrderItem) : ∀ (vs : List Variant) (it : OrderItem),
    resolveId ps (decrementStockForOrder ps vs items) it =
      resolveId ps vs it := by
  induction items with
  | nil => intro vs it; rfl
  | cons it0 rest ih =>
    intro vs it
    rw [decrementStockForOrder_cons, ih, resolveId_decrementStep]

/-- Frame property: a variant id not resolved by any processed item keeps
its stock reading across the decrement loop. -/
theorem getStock_decrementStockForOrder_frame (ps : List Product)
    (items : List OrderItem) : ∀ (vs : List Variant) (vid : Nat),
    (∀ it ∈ items, resolveId ps vs it ≠ some vid) →
    getStock (decrementStockForOrder ps vs items) vid = getStock vs vid := by
  induction items with
  | nil => intro vs vid _; rfl
  | cons it0 rest ih =>
    intro vs vid hno
    rw [decrementStockForOrder_cons]
    have hstep : getStock (decrementStep ps vs it0) vid = getStock vs vid := by
      unfold decrementStep
      cases h : resolveItem ps vs it0 with
      | none => rfl
      | some v =>
        have hne : vid ≠ v.id := by
          intro he
          apply hno it0 (List.mem_cons_self it0 rest)
          unfold resolveId
          rw [h, he]
          rfl
        exact getStock_updateVariantStock_ne vs v.id _ vid hne
    have hrest : ∀ it ∈ rest,
        resolveId ps (decrementStep ps vs it0) it ≠ some vid := by
      intro it hit
      rw [resolveId_decrementStep]
      exact hno it (List.mem_cons_of_mem it0 hit)
    rw [ih (decrementStep ps vs it0) vid hrest, hstep]

/-- Main effect of the decrement loop: when ids are unique and the items
resolve to pairwise distinct variants, each resolved variant's stock
reading afterwards is its old stock decremented by that item's quantity,
clamped at zero. -/
theorem getStock_decrementStockForOrder (ps : List Product)
    (items : List OrderItem) : ∀ (vs : List Variant),
    (vs.map Variant.id).Nodup →
    (items.map (resolveId ps vs)).Nodup →
    (∀ it2 ∈ items, resolveId ps vs it2 ≠ none) →
    ∀ it ∈ items, ∀ v, resolveItem ps vs it = some v →
      getStock (decrementStockForOrder ps vs items) v.id =
        some (max 0 (v.stock_count - it.quantity)) := by
  induction items with
  | nil =>
    intro vs _ _ _ it hit
    cases hit
  | cons it0 rest ih =>
    intro vs hnd hrid hall it hit v hres
    obtain ⟨v0, hv0⟩ : ∃ v0, resolveItem ps vs it0 = some v0 := by
      cases h : resolveItem ps vs it0 with
      | none =>
        exfalso
        apply hall it0 (List.mem_cons_self it0 rest)
        unfold resolveId
        rw [h]
        rfl
      | some w => exact ⟨w, rfl⟩
    have hrid0 : resolveId ps vs it0 = some v0.id := by
      unfold resolveId
      rw [hv0]
      rfl
    rw [List.map_cons, List.nodup_cons] at hrid
    rw [decrementStockForOrder_cons,
      decrementStep_of_resolve ps vs it0 v0 hv0]
    rcases List.mem_cons.mp hit with heq | hmem
    · have hvv : v0 = v := by
        rw [heq] at hres
        exact Option.some.inj (hv0.symm.trans hres)
      rw [heq, ← hvv]
      have hframe : ∀ it2 ∈ rest,
          resolveId ps (updateVariantStock vs v0.id
            (max 0 (v0.stock_count - it0.quantity))) it2 ≠ some v0.id := by
        intro it2 hit2 hcontra
        rw [resolveId_updateVariantStock] at hcontra
        apply hrid.1
        rw [hrid0]
        exact hcontra ▸ List.mem_map_of_mem (resolveId ps vs) hit2
      rw [getStock_decrementStockForOrder_frame ps rest _ v0.id hframe,
        getStock_updateVariantStock_self,
        getStock_eq_of_nodup vs hnd v0 (mem_of_resolveItem ps vs it0 v0 hv0)]
      rfl
    · have hrmem : resolveId ps vs it = some v.id := by
        unfold resolveId
        rw [hres]
        rfl
      have hv_ne : v.id ≠ v0.id := by
        intro he
        apply hrid.1
        rw [hrid0, ← he, ← hrmem]
        exact List.mem_map_of_mem (resolveId ps vs) hmem
      have hres' : resolveItem ps (updateVariantStock vs v0.id
          (max 0 (v0.stock_count - it0.quantity))) it = some v := by
        rw [resolveItem_updateVariantStock, hres]
        have hsw : stockWrite v0.id (max 0 (v0.stock_count - it0.quantity)) v = v := by
          have hcond : (v.id == v0.id) = false := beq_eq_false_iff_ne.mpr hv_ne
          unfold stockWrite
          rw [hcond]
          simp
        simp [hsw]
      apply ih (updateVariantStock vs v0.id
          (max 0 (v0.stock_count - it0.quantity))) ?_ ?_ ?_ it hmem v hres'
      · rw [ids_updateVariantStock]
        exact hnd
      · have hmap : rest.map (resolveId ps (updateVariantStock vs v0.id
            (max 0 (v0.stock_count - it0.quantity)))) =
            rest.map (resolveId ps vs) := by
          apply List.map_congr_left
          intro it2 _
          exact resolveId_updateVariantStock ps vs v0.id _ it2
        rw [hmap]
        exact hrid.2
      · intro it2 hit2
        rw [resolveId_updateVariantStock]
        exact hall it2 (List.mem_cons_of_mem it0 hit2)

/-- A status change whose guard holds: status updated and the decrement
routine run over the order's items. -/
theorem handleStatusChange_decrement (db : AdminDB) (oid : Nat) (ns : String)
    (o : Order) (hfind : db.orders.find? (fun x => x.id == oid) = some o)
    (hsd : shouldDecrementStock (some o.status) ns = true) :
    handleStatusChange db oid ns =
      { products := db.products,
        variants := decrementStockForOrder db.products db.variants
          (itemsForOrder db oid),
        orders := setOrderStatus db.orders oid ns,
        order_items := db.order_items } := by
  unfold handleStatusChange
  rw [hfind]
  simp only [Option.map_some']
  rw [if_pos hsd]
  rfl

/-- A status change whose guard fails: only the status is updated. -/
theorem handleStatusChange_no_decrement (db : AdminDB) (oid : Nat)
    (ns : String) (o : Order)
    (hfind : db.orders.find? (fun x => x.id == oid) = some o)
    (hsd : shouldDecrementStock (some o.status) ns = false) :
    handleStatusChange db oid ns =
      { db with orders := setOrderStatus db.orders oid ns } := by
  unfold handleStatusChange
  rw [hfind]
  simp only [Option.map_some']
  rw [if_neg]
  simp [hsd]

/-- A status write keeps the order findable, with the new status. -/
theorem find?_setOrderStatus (orders : List Order) (oid : Nat) (st : String)
    (o : Order) (h : orders.find? (fun x => x.id == oid) = some o) :
    (setOrderStatus orders oid st).find? (fun x => x.id == oid) =
      some { o with status := st } := by
  unfold setOrderStatus
  rw [find?_over_map]
  have hp : (fun x : Order =>
      ((if x.id == oid then { x with status := st } else x).id == oid)) =
      fun x : Order => x.id == oid := by
    funext x
    cases hx : x.id == oid <;> simp [hx]
  rw [hp, h]
  have ho : (o.id == oid) = true := by
    simpa using List.find?_some h
  simp [ho]
  intro hno
  exact absurd (by simpa using ho) hno

/-! ## Claims about the admin status change and inventory decrement -/

/-- C3: whenever both lookups of the decrement routine succeed, the written
stock reading equals max(0, old_stock − quantity), which is never
negative. -/
theorem C3_decrement_clamped (ps : List Product) (vs : List Variant)
    (it : OrderItem) (v : Variant)
    (hres : resolveItem ps vs it = some v) :
    getStock (decrementStep ps vs it) v.id =
      some (max 0 (v.stock_count - it.quantity)) ∧
    (∀ s, getStock (decrementStep ps vs it) v.id = some s → 0 ≤ s) := by
  have hstep := decrementStep_of_resolve ps vs it v hres
  have hmem := mem_of_resolveItem ps vs it v hres
  obtain ⟨w, hw⟩ := getStock_isSome_of_mem vs v hmem
  constructor
  · rw [hstep, getStock_updateVariantStock_self, hw]
    rfl
  · intro s hs
    rw [hstep, getStock_updateVariantStock_self, hw] at hs
    have hval : max 0 (v.stock_count - it.quantity) = s :=
      Option.some.inj hs
    rw [← hval]
    exact le_max_left 0 _

/-- The product row of the seed catalogue used by the witnesses. -/
def productE : Product :=
  { id := 1, name := "Ethiopian Yirgacheffe" }

/-- A variant with stock 2, for the clamping witness. -/
def variantStock2 : Variant :=
  { id := 1, product_id := 1, size := "250g", grind_type := "whole_bean",
    stock_count := 2 }

/-- An order item for five bags of that variant. -/
def itemQty5 : OrderItem :=
  { order_id := 1, variant_id := none,
    product_name := "Ethiopian Yirgacheffe", grind_type := "whole_bean",
    bag_size := "250g", quantity := 5, unit_price := 650 }

/-- C3 witness: stock 2, quantity 5 write back exactly 0. -/
theorem C3_decrement_witness :
    getStock (decrementStep [productE] [variantStock2] itemQty5) 1 =
      some 0 := by
  have h := (C3_decrement_clamped [productE] [variantStock2] itemQty5
    variantStock2 rfl).1
  exact h.trans (by rfl)

/-- C2: from an order in status "new", the admin status sequence
new→shipped→processing→shipped runs the decrement routine on both the
new→shipped and the processing→shipped transition, so the final variants
table is the decrement routine applied twice; consequently (with
primary-key-unique variant ids and items resolving to pairwise distinct
variants) every resolved variant's stock is decremented by its item's
quantity twice, each step clamped at zero. -/
theorem C2_status_toggle_double_decrement (db : AdminDB) (oid : Nat)
    (o : Order) (hfind : db.orders.find? (fun x => x.id == oid) = some o)
    (hstatus : o.status = "new") :
    (handleStatusChange (handleStatusChange (handleStatusChange db oid
        "shipped") oid "processing") oid "shipped").variants =
      decrementStockForOrder db.products
        (decrementStockForOrder db.products db.variants (itemsForOrder db oid))
        (itemsForOrder db oid) ∧
    ((db.variants.map Variant.id).Nodup →
     ((itemsForOrder db oid).map (resolveId db.products db.variants)).Nodup →
     (∀ it2 ∈ itemsForOrder db oid,
       resolveId db.products db.variants it2 ≠ none) →
     ∀ it ∈ itemsForOrder db oid, ∀ v,
       resolveItem db.products db.variants it = some v →
       getStock (handleStatusChange (handleStatusChange (handleStatusChange
           db oid "shipped") oid "processing") oid "shipped").variants v.id =
         some (max 0 (max 0 (v.stock_count - it.quantity) - it.quantity))) := by
  have hsd1 : shouldDecrementStock (some o.status) "shipped" = true := by
    rw [hstatus]
    rfl
  have h1 : handleStatusChange db oid "shipped" =
      { products := db.products,
        variants := decrementStockForOrder db.products db.variants
          (itemsForOrder db oid),
        orders := setOrderStatus db.orders oid "shipped",
        order_items := db.order_items } :=
    handleStatusChange_decrement db oid "shipped" o hfind hsd1
  have hfind1 : (setOrderStatus db.orders oid "shipped").find?
      (fun x => x.id == oid) = some { o with status := "shipped" } :=
    find?_setOrderStatus db.orders oid "shipped" o hfind
  have h2 : handleStatusChange (handleStatusChange db oid "shipped") oid
      "processing" =
      { products := db.products,
        variants := decrementStockForOrder db.products db.variants
          (itemsForOrder db oid),
        orders := setOrderStatus (setOrderStatus db.orders oid "shipped") oid
          "processing",
        order_items := db.order_items } := by
    rw [h1]
    exact handleStatusChange_no_decrement _ oid "processing"
      { o with status := "shipped" } hfind1 rfl
  have hfind2 : (setOrderStatus (setOrderStatus db.orders oid "shipped") oid
      "processing").find? (fun x => x.id == oid) =
      some { o with status := "processing" } :=
    find?_setOrderStatus _ oid "processing" { o with status := "shipped" }
      hfind1
  have h3 : handleStatusChange (handleStatusChange (handleStatusChange db oid
      "shipped") oid "processing") oid "shipped" =
      { products := db.products,
        variants := decrementStockForOrder db.products
          (decrementStockForOrder db.products db.variants
            (itemsForOrder db oid)) (itemsForOrder db oid),
        orders := setOrderStatus (setOrderStatus (setOrderStatus db.orders oid
          "shipped") oid "processing") oid "shipped",
        order_items := db.order_items } := by
    rw [h2]
    exact handleStatusChange_decrement _ oid "shipped"
      { o with status := "processing" } hfind2 rfl
  constructor
  · rw [h3]
  · intro hnd hrid hall it hit v hres
    rw [h3]
    have hfirst : getStock (decrementStockForOrder db.products db.variants
        (itemsForOrder db oid)) v.id =
        some (max 0 (v.stock_count - it.quantity)) :=
      getStock_decrementStockForOrder db.products (itemsForOrder db oid)
        db.variants hnd hrid hall it hit v hres
    have hrinv : resolveId db.products (decrementStockForOrder db.products
        db.variants (itemsForOrder db oid)) it =
        some v.id := by
      rw [resolveId_decrementStockForOrder]
      unfold resolveId
      rw [hres]
      rfl
    obtain ⟨v1, hv1, hv1id⟩ : ∃ v1, resolveItem db.products
        (decrementStockForOrder db.products db.variants (itemsForOrder db oid))
        it = some v1 ∧ v1.id = v.id := by
      unfold resolveId at hrinv
      cases hcase : resolveItem db.products (decrementStockForOrder db.products
          db.variants (itemsForOrder db oid)) it with
      | none => rw [hcase] at hrinv; cases hrinv
      | some w =>
        rw [hcase] at hrinv
        exact ⟨w, rfl, by simpa using hrinv⟩
    have hnd1 : ((decrementStockForOrder db.products db.variants
        (itemsForOrder db oid)).map Variant.id).Nodup := by
      rw [ids_decrementStockForOrder]
      exact hnd
    have hv1mem := mem_of_resolveItem db.products _ it v1 hv1
    have hv1stock : getStock (decrementStockForOrder db.products db.variants
        (itemsForOrder db oid)) v1.id = some v1.stock_count :=
      getStock_eq_of_nodup _ hnd1 v1 hv1mem
    have hv1val : v1.stock_count = max 0 (v.stock_count - it.quantity) := by
      rw [hv1id] at hv1stock
      exact Option.some.inj (hv1stock.symm.trans hfirst)
    have hrid1 : ((itemsForOrder db oid).map (resolveId db.products
        (decrementStockForOrder db.products db.variants
          (itemsForOrder db oid)))).Nodup := by
      have hmap : (itemsForOrder db oid).map (resolveId db.products
          (decrementStockForOrder db.products db.variants
            (itemsForOrder db oid))) =
          (itemsForOrder db oid).map (resolveId db.products db.variants) := by
        apply List.map_congr_left
        intro it2 _
        exact resolveId_decrementStockForOrder db.products
          (itemsForOrder db oid) db.variants it2
      rw [hmap]
      exact hrid
    have hall1 : ∀ it2 ∈ itemsForOrder db oid, resolveId db.products
        (decrementStockForOrder db.products db.variants (itemsForOrder db oid))
        it2 ≠ none := by
      intro it2 hit2
      rw [resolveId_decrementStockForOrder]
      exact hall it2 hit2
    have hsecond := getStock_decrementStockForOrder db.products
      (itemsForOrder db oid)
      (decrementStockForOrder db.products db.variants (itemsForOrder db oid))
      hnd1 hrid1 hall1 it hit v1 hv1
    rw [hv1id, hv1val] at hsecond
    exact hsecond

/-- The "new" order used by the C2 witness. -/
def orderNewSample : Order :=
  { id := 1, user_id := 1, status := "new", total_amount := 1950,
    shipping_name := "John Doe", shipping_email := "john@example.com",
    shipping_phone := "9876543210", shipping_address := "123 Coffee Street",
    shipping_city := "Mumbai", shipping_state := "Maharashtra",
    shipping_pincode := "400001", payment_status := "pending",
    payment_id := none }

/-- A variant with stock 10, for the double-decrement witness. -/
def variantStock10 : Variant :=
  { id := 1, product_id := 1, size := "250g", grind_type := "whole_bean",
    stock_count := 10 }

/-- An order item for three bags of that variant. -/
def itemQty3 : OrderItem :=
  { order_id := 1, variant_id := none,
    product_name := "Ethiopian Yirgacheffe", grind_type := "whole_bean",
    bag_size := "250g", quantity := 3, unit_price := 650 }

/-- The one-order database used by the C2 witness. -/
def adminDBSample : AdminDB :=
  { products := [productE], variants := [variantStock10],
    orders := [orderNewSample], order_items := [itemQty3] }

/-- C2 witness: stock 10, quantity 3, toggling new→shipped→processing→
shipped leaves the variant at 10 − 3 − 3 = 4. -/
theorem C2_status_toggle_witness :
    getStock (handleStatusChange (handleStatusChange (handleStatusChange
        adminDBSample 1 "shipped") 1 "processing") 1 "shipped").variants 1 =
      some 4 := by
  have h := (C2_status_toggle_double_decrement adminDBSample 1 orderNewSample
      rfl rfl).2 (by decide) (by decide) (by decide) itemQty3 (by decide)
      variantStock10 rfl
  exact h.trans (by rfl)

end CoffeeApp
